import Mathlib

/-!
Shallow embedding of the BriarNotify scheduled-message store, scheduler and
dead-man-switch (DMS) controller (src/briar_notify/internal_service/scheduler.py
and src/briar_notify/internal_service/dead_mans_switch.py).

The JSON file `scheduled_messages.json` is modelled as a `List ScheduledMessage`
threaded explicitly through each operation.  Wall-clock reads
(`time.time()` / `datetime.now()`) are modelled by an explicit `now : Int`
parameter.  A fallible file write is modelled by a boolean oracle
(`writeOk`): `false` means the write raises and, per the persistence
semantics, the previously persisted state is kept.
-/

namespace BriarNotify

/-- Python `str.lower()` restricted to ASCII: lower-case every character. -/
def strLower (s : String) : String := String.mk (s.data.map Char.toLower)

/-- Python `str.strip()` restricted to ASCII whitespace: drop leading and
trailing whitespace characters. -/
def pyStrip (s : String) : String :=
  String.mk
    (((s.data.dropWhile Char.isWhitespace).reverse.dropWhile
        Char.isWhitespace).reverse)

/-- Python `str.startswith`. -/
def strStartsWith (s pre : String) : Bool := pre.data.isPrefixOf s.data

/-- Helper for the substring test: does `needle` occur in the list? -/
def listContains (needle : List Char) : List Char → Bool
  | [] => needle.isEmpty
  | c :: rest => needle.isPrefixOf (c :: rest) || listContains needle rest

/-- Python `needle in haystack` substring test. -/
def strContains (haystack needle : String) : Bool :=
  listContains needle.data haystack.data

/-- A single quote character, used in several source string literals. -/
def apos : String := String.singleton (Char.ofNat 39)

/-- One entry of `scheduled_messages.json`; field names follow the source
(`recipients = none` is the broadcast sentinel, matching JSON `null`). -/
structure ScheduledMessage where
  id : String
  title : String
  content : String
  scheduled_timestamp : Int
  recipients : Option (List String)
  json_payload : Bool
  dead_mans_switch : Bool
  reset_word : String
  original_interval_seconds : Int
deriving Repr, DecidableEq

/-- Zero-padded 4-digit rendering of `n % 10000`, Python `f-string %04d`. -/
def pad4 (n : Nat) : String :=
  let s := toString (n % 10000)
  String.mk (List.replicate (4 - s.length) (Char.ofNat 48)) ++ s

/-- Stand-in for Python `hash` on strings.  The runtime hash is seeded per
process; it is modelled as a fixed deterministic function, which is faithful
for every property proved here (equal inputs always hash equal). -/
def pyHash (s : String) : Nat :=
  s.data.foldl (fun a c => (a * 31 + c.toNat) % 1152921504606846976) 7

/-- Message id scheme of `MessageScheduler.add_message` (scheduler.py:45):
`msg_{int(time.time())}_{hash(title + content) % 10000:04d}`. -/
def mkMessageId (now : Int) (title content : String) : String :=
  "msg_" ++ toString now ++ "_" ++ pad4 (pyHash (title ++ content) % 10000)

/-- Modelled from the spec: the body of the rejection branch
`if timestamp <= current_time:` (scheduler.py:50) is absent from src/; per
the spec it rejects with an error and enqueues nothing, modelled as
`Except.error` with the store unchanged.  The rest of the function follows
scheduler.py:39-77: build the id, validate, append, write (a failed write
raises and keeps the prior persisted state). -/
def add_message (now : Int) (writeOk : Bool) (title content : String)
    (scheduled_timestamp : Int) (recipients : Option (List String))
    (json_payload dead_mans_switch : Bool) (reset_word : String)
    (original_interval_seconds : Int) (store : List ScheduledMessage) :
    Except Unit String × List ScheduledMessage :=
  let message_id := mkMessageId now title content
  if scheduled_timestamp ≤ now then
    (Except.error (), store)
  else if writeOk then
    (Except.ok message_id,
     store ++ [⟨message_id, title, content, scheduled_timestamp, recipients,
               json_payload, dead_mans_switch, reset_word,
               original_interval_seconds⟩])
  else
    (Except.error (), store)

/-- The deletion filter of `delete_messages_by_reset_word`
(scheduler.py:211-212) and `_delete_messages_by_reset_word`
(dead_mans_switch.py:279-280): dead_mans_switch flag set and reset word
equal case-insensitively. -/
def matchesResetWord (reset_word : String) (m : ScheduledMessage) : Bool :=
  m.dead_mans_switch && (strLower m.reset_word == strLower reset_word)

/-- The accumulation loop shared by scheduler.py:210-215 and
dead_mans_switch.py:278-284: walk the stored list, counting matching
messages and keeping the rest in order. -/
def deleteScan (reset_word : String) (store : List ScheduledMessage) :
    Nat × List ScheduledMessage :=
  store.foldl
    (fun acc m =>
      if matchesResetWord reset_word m then (acc.1 + 1, acc.2)
      else (acc.1, acc.2 ++ [m]))
    (0, [])

/-- Result of `MessageScheduler.delete_messages_by_reset_word`; the source
returns only the success flag, `deleted_count` is its local counter
(scheduler.py:208,213) exposed for observation. -/
structure DeleteResult where
  success : Bool
  deleted_count : Nat
  store : List ScheduledMessage
deriving Repr, DecidableEq

/-- `MessageScheduler.delete_messages_by_reset_word` (scheduler.py:188-228). -/
def delete_messages_by_reset_word (reset_word : String)
    (store : List ScheduledMessage) : DeleteResult :=
  ⟨true, (deleteScan reset_word store).1, (deleteScan reset_word store).2⟩

/-- `DeadMansSwitch._delete_messages_by_reset_word`
(dead_mans_switch.py:254-297), a verbatim copy of the scheduler version
returning only the success flag. -/
def dms_delete_messages_by_reset_word (reset_word : String)
    (store : List ScheduledMessage) : Bool × List ScheduledMessage :=
  (true, (deleteScan reset_word store).2)

/-- Title of the trigger message (the apostrophe is built via apos). -/
def triggeredTitle : String := "Dead Man" ++ apos ++ "s Switch - Triggered"

/-- Title of the 24-hour warning message. -/
def warning24Title : String := "Dead Man" ++ apos ++ "s Switch - 24 Hour Warning"

/-- Boilerplate content of the 24-hour warning (dead_mans_switch.py:58). -/
def warning24Content : String :=
  "This is a 24-hour warning. The dead man" ++ apos ++
  "s switch will trigger in 24 hours unless reset with the correct word."

/-- Title of the 2-hour warning message. -/
def warning2Title : String := "Dead Man" ++ apos ++ "s Switch - 2 Hour Warning"

/-- Boilerplate content of the 2-hour warning (dead_mans_switch.py:71). -/
def warning2Content : String :=
  "This is a 2-hour warning. The dead man" ++ apos ++
  "s switch will trigger in 2 hours unless reset with the correct word."

/-- `DeadMansSwitch._get_main_message_content` (dead_mans_switch.py:227-252):
first stored DMS message with case-insensitively equal reset word whose
title starts with the trigger title; `none` when absent. -/
def get_main_message_content (reset_word : String)
    (store : List ScheduledMessage) : Option String :=
  match store.find? (fun m =>
      m.dead_mans_switch &&
      (strLower m.reset_word == strLower reset_word) &&
      strStartsWith m.title triggeredTitle) with
  | some m => some m.content
  | none => none

/-- `MessageScheduler._get_sleep_time` (scheduler.py:174-186): smallest
future timestamp minus now, clamped to [1, 300]; 60 when none is future. -/
def default_sleep_seconds : Int := 60

/-- Sleep computation of the scheduler loop (scheduler.py:174-186). -/
def get_sleep_time (now : Int) (store : List ScheduledMessage) : Int :=
  let future_timestamps :=
    (store.filter (fun m => now < m.scheduled_timestamp)).map
      (fun m => m.scheduled_timestamp)
  match future_timestamps with
  | [] => default_sleep_seconds
  | t :: ts => max 1 (min (ts.foldl min t - now) 300)

/-- The messages `_process_due_messages` writes back (scheduler.py:105-121):
exactly those whose timestamp is still in the future. -/
def process_due_remaining (now : Int) (store : List ScheduledMessage) :
    List ScheduledMessage :=
  store.filter (fun m => now < m.scheduled_timestamp)

/-- Recipient determination of `schedule_dead_mans_switch`
(dead_mans_switch.py:52): `[contact_id] if contact_id else None`; Python
truthiness makes both `None` and the empty string broadcast. -/
def dmsRecipients (contact_id : Option String) : Option (List String) :=
  match contact_id with
  | some c => if c == "" then none else some [c]
  | none => none

/-- Final `add_message` call of the arming sequence, the trigger message
(dead_mans_switch.py:81-89). -/
def schedule_step_main (now : Int) (ok : Bool) (interval_seconds : Int)
    (main_message rw : String) (recips : Option (List String))
    (store : List ScheduledMessage) : Bool × List ScheduledMessage :=
  match add_message now ok triggeredTitle main_message (now + interval_seconds)
      recips false true rw interval_seconds store with
  | (Except.error _, s) => (false, s)
  | (Except.ok _, s) => (true, s)

/-- Conditional 2-hour-warning call followed by the trigger call
(dead_mans_switch.py:68-89); `k` is the index of the next write. -/
def schedule_step_2h (now : Int) (writeOk : Nat → Bool) (k : Nat)
    (interval_seconds : Int) (main_message rw : String)
    (recips : Option (List String)) (store : List ScheduledMessage) :
    Bool × List ScheduledMessage :=
  if 2 * 3600 < interval_seconds then
    match add_message now (writeOk k) warning2Title warning2Content
        (now + interval_seconds - 2 * 3600) recips false true rw
        interval_seconds store with
    | (Except.error _, s) => (false, s)
    | (Except.ok _, s) =>
        schedule_step_main now (writeOk (k + 1)) interval_seconds
          main_message rw recips s
  else
    schedule_step_main now (writeOk k) interval_seconds main_message rw
      recips store

/-- `DeadMansSwitch.schedule_dead_mans_switch` (dead_mans_switch.py:25-97):
conditionally add the 24-hour warning, then conditionally the 2-hour
warning, then the trigger; an exception from any `add_message` is caught
and turns into a `false` return with the store as already written. -/
def schedule_dead_mans_switch (now : Int) (writeOk : Nat → Bool)
    (interval_seconds : Int) (main_message reset_word : String)
    (contact_id : Option String) (store : List ScheduledMessage) :
    Bool × List ScheduledMessage :=
  let recips := dmsRecipients contact_id
  let rw := strLower reset_word
  if 24 * 3600 < interval_seconds then
    match add_message now (writeOk 0) warning24Title warning24Content
        (now + interval_seconds - 24 * 3600) recips false true rw
        interval_seconds store with
    | (Except.error _, s) => (false, s)
    | (Except.ok _, s) =>
        schedule_step_2h now writeOk 1 interval_seconds main_message rw
          recips s
  else
    schedule_step_2h now writeOk 0 interval_seconds main_message rw recips
      store

/-- The exact messages a fully successful arming appends, in order
(derived characterization of `schedule_dead_mans_switch`; `rw` is the
already-lowered reset word and `recips` the computed recipients). -/
def warning24Message (now interval : Int) (rw : String)
    (recips : Option (List String)) : ScheduledMessage :=
  ⟨mkMessageId now warning24Title warning24Content, warning24Title,
   warning24Content, now + interval - 24 * 3600, recips, false, true, rw,
   interval⟩

/-- The 2-hour-warning message a successful arming appends. -/
def warning2Message (now interval : Int) (rw : String)
    (recips : Option (List String)) : ScheduledMessage :=
  ⟨mkMessageId now warning2Title warning2Content, warning2Title,
   warning2Content, now + interval - 2 * 3600, recips, false, true, rw,
   interval⟩

/-- The trigger message a successful arming appends, carrying the user
payload at `now + interval`. -/
def trigMessage (now interval : Int) (main_message rw : String)
    (recips : Option (List String)) : ScheduledMessage :=
  ⟨mkMessageId now triggeredTitle main_message, triggeredTitle,
   main_message, now + interval, recips, false, true, rw, interval⟩

/-- The full list of messages a successful arming appends: 24-hour warning
only when the interval exceeds 24 hours, 2-hour warning only when it
exceeds 2 hours, always the trigger. -/
def dms_messages (now interval : Int) (main_message rw : String)
    (recips : Option (List String)) : List ScheduledMessage :=
  (if 24 * 3600 < interval then [warning24Message now interval rw recips]
   else []) ++
  (if 2 * 3600 < interval then [warning2Message now interval rw recips]
   else []) ++
  [trigMessage now interval main_message rw recips]

/-- `DeadMansSwitch._disable_dead_mans_switch` (dead_mans_switch.py:178-191);
the requesting contact is only logged by the source. -/
def disable_dead_mans_switch (reset_word : String) (_contact_id : String)
    (store : List ScheduledMessage) : Bool × List ScheduledMessage :=
  dms_delete_messages_by_reset_word reset_word store

/-- `DeadMansSwitch._reset_dead_mans_switch` (dead_mans_switch.py:193-225):
recover the trigger content (Python falsiness also fails on the empty
string), delete every message of the switch, re-arm with the original
interval, the recovered content, and the requesting contact as target. -/
def reset_dead_mans_switch (now : Int) (writeOk : Nat → Bool)
    (reset_word : String) (original_interval_seconds : Int)
    (contact_id : String) (store : List ScheduledMessage) :
    Bool × List ScheduledMessage :=
  match get_main_message_content reset_word store with
  | none => (false, store)
  | some original_content =>
    if original_content == "" then (false, store)
    else
      match dms_delete_messages_by_reset_word reset_word store with
      | (false, s) => (false, s)
      | (true, s) =>
          schedule_dead_mans_switch now writeOk original_interval_seconds
            original_content reset_word (some contact_id) s

/-- The mapping reset word → interval built in dead_mans_switch.py:131-136:
a Python dict in insertion order, keyed by the lowered reset word of each
stored DMS message with a truthy (non-empty) reset word, keeping the
`original_interval_seconds` of the first occurrence. -/
def active_reset_words (store : List ScheduledMessage) :
    List (String × Int) :=
  store.foldl
    (fun acc m =>
      if m.dead_mans_switch && !(m.reset_word == "") then
        let w := strLower m.reset_word
        if (acc.find? (fun p => p.1 == w)).isSome then acc
        else acc ++ [(w, m.original_interval_seconds)]
      else acc)
    []

/-- The scan of dead_mans_switch.py:143-150: first active reset word that
occurs in the lowered message text. -/
def find_reset_word (message_lower : String)
    (store : List ScheduledMessage) : Option (String × Int) :=
  (active_reset_words store).find? (fun p => strContains message_lower p.1)

/-- Confirmation text for a successful disable (dead_mans_switch.py:164). -/
def disabledOkMsg : String :=
  "Dead man" ++ apos ++ "s switch has been permanently disabled."

/-- Confirmation text for a failed disable (dead_mans_switch.py:166). -/
def disabledFailMsg : String :=
  "Failed to disable dead man" ++ apos ++ "s switch."

/-- Confirmation text for a successful reset (dead_mans_switch.py:171). -/
def resetOkMsg : String :=
  "Dead man" ++ apos ++ "s switch has been reset and timer restarted."

/-- Confirmation text for a failed reset (dead_mans_switch.py:173). -/
def resetFailedMsg : String :=
  "Failed to reset dead man" ++ apos ++ "s switch."

/-- Outcome of `process_incoming_message`: the store after handling plus
the `(contact, text)` confirmations sent via the notifier. -/
structure ProcessResult where
  store : List ScheduledMessage
  confirmations : List (String × String)
deriving Repr, DecidableEq

/-- `DeadMansSwitch.process_incoming_message` (dead_mans_switch.py:99-176):
skip empty text, lower and strip it, find the first matching active reset
word; disable when the text also contains `"end"`, otherwise reset; send
the matching confirmation to the sender. -/
def process_incoming_message (now : Int) (writeOk : Nat → Bool)
    (contact_id : String) (message_text : String)
    (store : List ScheduledMessage) : ProcessResult :=
  if message_text == "" then ⟨store, []⟩
  else
    let message_lower := pyStrip (strLower message_text)
    match find_reset_word message_lower store with
    | none => ⟨store, []⟩
    | some (found_reset_word, original_interval) =>
      if strContains message_lower "end" then
        match disable_dead_mans_switch found_reset_word contact_id store with
        | (true, s) => ⟨s, [(contact_id, disabledOkMsg)]⟩
        | (false, s) => ⟨s, [(contact_id, disabledFailMsg)]⟩
      else
        match reset_dead_mans_switch now writeOk found_reset_word
            original_interval contact_id store with
        | (true, s) => ⟨s, [(contact_id, resetOkMsg)]⟩
        | (false, s) => ⟨s, [(contact_id, resetFailedMsg)]⟩

/-- Spec-side view for the sleep computation: the gaps `scheduledAt - now`
of the pending (strictly future) messages. -/
def pendingGaps (now : Int) (store : List ScheduledMessage) : List Int :=
  (store.filter (fun m => now < m.scheduled_timestamp)).map
    (fun m => m.scheduled_timestamp - now)

lemma deleteScan_go (w : String) (s : List ScheduledMessage) (c : Nat)
    (l : List ScheduledMessage) :
    s.foldl
      (fun acc m =>
        if matchesResetWord w m then (acc.1 + 1, acc.2)
        else (acc.1, acc.2 ++ [m]))
      (c, l)
    = (c + (s.filter (fun m => matchesResetWord w m)).length,
       l ++ s.filter (fun m => !(matchesResetWord w m))) := by
  induction s generalizing c l with
  | nil => simp
  | cons m rest ih =>
      by_cases hm : matchesResetWord w m
      · simp [List.foldl_cons, List.filter_cons, hm, ih]
        omega
      · simp [List.foldl_cons, List.filter_cons, hm, ih]

lemma deleteScan_eq (w : String) (s : List ScheduledMessage) :
    deleteScan w s
    = ((s.filter (fun m => matchesResetWord w m)).length,
       s.filter (fun m => !(matchesResetWord w m))) := by
  simpa using deleteScan_go w s 0 []

lemma schedule_step_main_ok (now : Int) (interval : Int) (mm rw : String)
    (recips : Option (List String)) (s : List ScheduledMessage)
    (hi : 0 < interval) :
    schedule_step_main now true interval mm rw recips s
    = (true, s ++ [trigMessage now interval mm rw recips]) := by
  unfold schedule_step_main add_message
  rw [if_neg (by omega)]
  simp [trigMessage]

lemma schedule_step_2h_ok (now : Int) (wk : Nat → Bool) (k : Nat)
    (interval : Int) (mm rw : String) (recips : Option (List String))
    (s : List ScheduledMessage) (hi : 0 < interval)
    (hwk : ∀ n, wk n = true) :
    schedule_step_2h now wk k interval mm rw recips s
    = (true,
       s ++ (if 2 * 3600 < interval then [warning2Message now interval rw recips] else [])
         ++ [trigMessage now interval mm rw recips]) := by
  unfold schedule_step_2h
  by_cases h2 : (2 * 3600 : Int) < interval
  · rw [if_pos h2, if_pos h2]
    unfold add_message
    rw [if_neg (by omega)]
    simp only [hwk, if_true]
    rw [schedule_step_main_ok now interval mm rw recips _ hi]
    simp [warning2Message, List.append_assoc]
  · rw [if_neg h2, if_neg h2, hwk k]
    rw [schedule_step_main_ok now interval mm rw recips _ hi]
    simp

/-- A fully successful arming appends exactly `dms_messages`. -/
lemma schedule_dead_mans_switch_ok (now : Int) (interval : Int)
    (mm w : String) (c : Option String) (s : List ScheduledMessage)
    (hi : 0 < interval) :
    schedule_dead_mans_switch now (fun _ => true) interval mm w c s
    = (true, s ++ dms_messages now interval mm (strLower w) (dmsRecipients c)) := by
  unfold schedule_dead_mans_switch dms_messages
  by_cases h24 : (24 * 3600 : Int) < interval
  · rw [if_pos h24, if_pos h24]
    unfold add_message
    rw [if_neg (by omega)]
    simp only [if_true]
    rw [schedule_step_2h_ok now (fun _ => true) 1 interval mm (strLower w)
      (dmsRecipients c) _ hi (fun _ => rfl)]
    simp [warning24Message, List.append_assoc]
  · rw [if_neg h24, if_neg h24]
    rw [schedule_step_2h_ok now (fun _ => true) 0 interval mm (strLower w)
      (dmsRecipients c) _ hi (fun _ => rfl)]
    simp

lemma add_message_snd_cases (now : Int) (ok : Bool) (ti co : String)
    (ts : Int) (rc : Option (List String)) (jp dms : Bool) (rw : String)
    (oi : Int) (s : List ScheduledMessage) :
    (add_message now ok ti co ts rc jp dms rw oi s).2 = s ∨
    (add_message now ok ti co ts rc jp dms rw oi s).2
      = s ++ [⟨mkMessageId now ti co, ti, co, ts, rc, jp, dms, rw, oi⟩] := by
  unfold add_message
  by_cases h : ts ≤ now
  · left; rw [if_pos h]
  · rw [if_neg h]
    cases ok
    · left; rfl
    · right; rfl

lemma add_message_dms_filter (now : Int) (ok : Bool) (ti co : String)
    (ts : Int) (rc : Option (List String)) (jp : Bool) (rw : String)
    (oi : Int) (s : List ScheduledMessage) :
    ((add_message now ok ti co ts rc jp true rw oi s).2).filter
      (fun m => !m.dead_mans_switch)
    = s.filter (fun m => !m.dead_mans_switch) := by
  rcases add_message_snd_cases now ok ti co ts rc jp true rw oi s with h | h
  · rw [h]
  · rw [h, List.filter_append]
    simp

lemma schedule_step_main_filter (now : Int) (ok : Bool) (interval : Int)
    (mm rw : String) (recips : Option (List String))
    (s : List ScheduledMessage) :
    ((schedule_step_main now ok interval mm rw recips s).2).filter
      (fun m => !m.dead_mans_switch)
    = s.filter (fun m => !m.dead_mans_switch) := by
  unfold schedule_step_main
  have h := add_message_dms_filter now ok triggeredTitle mm
    (now + interval) recips false rw interval s
  rcases hadd : add_message now ok triggeredTitle mm (now + interval)
      recips false true rw interval s with ⟨e, s2⟩
  rw [hadd] at h
  cases e <;> simpa using h

lemma schedule_step_2h_filter (now : Int) (wk : Nat → Bool) (k : Nat)
    (interval : Int) (mm rw : String) (recips : Option (List String))
    (s : List ScheduledMessage) :
    ((schedule_step_2h now wk k interval mm rw recips s).2).filter
      (fun m => !m.dead_mans_switch)
    = s.filter (fun m => !m.dead_mans_switch) := by
  unfold schedule_step_2h
  by_cases h2 : (2 * 3600 : Int) < interval
  · rw [if_pos h2]
    have h := add_message_dms_filter now (wk k) warning2Title
      warning2Content (now + interval - 2 * 3600) recips false rw interval s
    rcases hadd : add_message now (wk k) warning2Title warning2Content
        (now + interval - 2 * 3600) recips false true rw interval s with ⟨e, s2⟩
    rw [hadd] at h
    cases e
    · simpa using h
    · simpa [schedule_step_main_filter] using h
  · rw [if_neg h2]
    exact schedule_step_main_filter now (wk k) interval mm rw recips s

/-- Arming, in every success or failure path, only ever appends messages
whose dead_mans_switch flag is set: the non-DMS part of the store is
untouched. -/
lemma schedule_dead_mans_switch_filter (now : Int) (wk : Nat → Bool)
    (interval : Int) (mm w : String) (c : Option String)
    (s : List ScheduledMessage) :
    ((schedule_dead_mans_switch now wk interval mm w c s).2).filter
      (fun m => !m.dead_mans_switch)
    = s.filter (fun m => !m.dead_mans_switch) := by
  unfold schedule_dead_mans_switch
  by_cases h24 : (24 * 3600 : Int) < interval
  · rw [if_pos h24]
    have h := add_message_dms_filter now (wk 0) warning24Title
      warning24Content (now + interval - 24 * 3600) (dmsRecipients c) false
      (strLower w) interval s
    rcases hadd : add_message now (wk 0) warning24Title warning24Content
        (now + interval - 24 * 3600) (dmsRecipients c) false true
        (strLower w) interval s with ⟨e, s2⟩
    rw [hadd] at h
    cases e
    · simpa using h
    · simpa [schedule_step_2h_filter] using h
  · rw [if_neg h24]
    exact schedule_step_2h_filter now wk 0 interval mm (strLower w)
      (dmsRecipients c) s

/-- Every message of a fresh arming batch carries the DMS flag, the
computed recipients and the lowered reset word. -/
lemma dms_messages_mem (now interval : Int) (mm rw : String)
    (recips : Option (List String)) (m : ScheduledMessage)
    (hm : m ∈ dms_messages now interval mm rw recips) :
    m.dead_mans_switch = true ∧ m.recipients = recips ∧ m.reset_word = rw ∧
    m.original_interval_seconds = interval := by
  unfold dms_messages at hm
  rw [List.mem_append, List.mem_append] at hm
  rcases hm with (hm | hm) | hm
  · split at hm <;> simp at hm
    subst hm
    exact ⟨rfl, rfl, rfl, rfl⟩
  · split at hm <;> simp at hm
    subst hm
    exact ⟨rfl, rfl, rfl, rfl⟩
  · simp at hm
    subst hm
    exact ⟨rfl, rfl, rfl, rfl⟩

/-- Characterization of a successful reset through the inbound-text
handler: the matched switch is deleted and re-armed with the recovered
content, targeting the sender. -/
lemma process_reset_eq (t : Int) (sender text w c : String) (i : Int)
    (store : List ScheduledMessage)
    (htext : text ≠ "")
    (hfind : find_reset_word (pyStrip (strLower text)) store = some (w, i))
    (hend : strContains (pyStrip (strLower text)) "end" = false)
    (hmain : get_main_message_content w store = some c)
    (hc : c ≠ "") (hi : 0 < i) :
    process_incoming_message t (fun _ => true) sender text store =
      ⟨(deleteScan w store).2 ++
        dms_messages t i c (strLower w) (dmsRecipients (some sender)),
       [(sender, resetOkMsg)]⟩ := by
  have ht : (text == "") = false := beq_eq_false_iff_ne.mpr htext
  have hcb : (c == "") = false := beq_eq_false_iff_ne.mpr hc
  unfold process_incoming_message
  rw [ht]
  simp only [Bool.false_eq_true, if_false]
  rw [hfind]
  simp only []
  rw [hend]
  simp only [Bool.false_eq_true, if_false]
  unfold reset_dead_mans_switch
  rw [hmain]
  simp only [hcb, Bool.false_eq_true, if_false]
  unfold dms_delete_messages_by_reset_word
  simp only []
  rw [schedule_dead_mans_switch_ok t i c w (some sender) _ hi]

/-- Characterization of a failed reset caused by an unrecoverable (absent
or empty) trigger content: store untouched, failure confirmation sent. -/
lemma process_reset_failed (t : Int) (wk : Nat → Bool)
    (sender text w : String) (i : Int) (store : List ScheduledMessage)
    (htext : text ≠ "")
    (hfind : find_reset_word (pyStrip (strLower text)) store = some (w, i))
    (hend : strContains (pyStrip (strLower text)) "end" = false)
    (hmain : get_main_message_content w store = none ∨
             get_main_message_content w store = some "") :
    process_incoming_message t wk sender text store =
      ⟨store, [(sender, resetFailedMsg)]⟩ := by
  have ht : (text == "") = false := beq_eq_false_iff_ne.mpr htext
  unfold process_incoming_message
  rw [ht]
  simp only [Bool.false_eq_true, if_false]
  rw [hfind]
  simp only []
  rw [hend]
  simp only [Bool.false_eq_true, if_false]
  unfold reset_dead_mans_switch
  rcases hmain with hmain | hmain
  · rw [hmain]
  · rw [hmain]
    simp

lemma foldl_min_sub (l : List Int) (a now : Int) :
    (l.map (fun t => t - now)).foldl min (a - now) = l.foldl min a - now := by
  induction l generalizing a with
  | nil => simp
  | cons h t ih =>
      simp only [List.map_cons, List.foldl_cons]
      rw [min_sub_sub_right a h now, ih]



/-- C3: every call of AddMessage whose scheduledAt is not strictly in the
future (scheduledAt <= now) returns an error and leaves the persisted
message set unchanged (nothing is enqueued). -/
theorem C3_add_message_rejects_past (now : Int) (ok : Bool) (ti co : String)
    (ts : Int) (rc : Option (List String)) (jp dms : Bool) (rw : String)
    (oi : Int) (store : List ScheduledMessage) (h : ts ≤ now) :
    (add_message now ok ti co ts rc jp dms rw oi store).1
      = Except.error () ∧
    (add_message now ok ti co ts rc jp dms rw oi store).2 = store := by
  unfold add_message
  rw [if_pos h]
  exact ⟨rfl, rfl⟩

/-- Concrete instance of C3: a message scheduled at time 5 with the clock
at 10 is rejected and the store (here one unrelated message) is unchanged. -/
theorem C3_witness :
    (5 : Int) ≤ 10 ∧
    (add_message 10 true "t" "c" 5 none false false "" 0
        [⟨"a", "t2", "c2", 99, none, false, false, "", 0⟩]).1
      = Except.error () ∧
    (add_message 10 true "t" "c" 5 none false false "" 0
        [⟨"a", "t2", "c2", 99, none, false, false, "", 0⟩]).2
      = [⟨"a", "t2", "c2", 99, none, false, false, "", 0⟩] := by
  refine ⟨by decide, ?_⟩
  exact C3_add_message_rejects_past 10 true "t" "c" 5 none false false "" 0
    [⟨"a", "t2", "c2", 99, none, false, false, "", 0⟩] (by decide)

/-- C7: the computed sleep duration is the smallest gap `scheduledAt - now`
over pending (strictly future) messages clamped to [1, 300] when a pending
message exists, and the fixed default of 60 seconds when none exists. -/
theorem C7_sleep_time (now : Int) (store : List ScheduledMessage) :
    ((pendingGaps now store).min? = none →
      get_sleep_time now store = 60) ∧
    (∀ g, (pendingGaps now store).min? = some g →
      get_sleep_time now store = max 1 (min g 300) ∧
      1 ≤ get_sleep_time now store ∧ get_sleep_time now store ≤ 300) := by
  unfold get_sleep_time pendingGaps
  cases hf : store.filter (fun m => now < m.scheduled_timestamp) with
  | nil =>
      constructor
      · intro _
        rfl
      · intro g hg
        rw [List.map_nil, List.min?_nil] at hg
        cases hg
  | cons m rest =>
      constructor
      · intro hnone
        rw [List.map_cons, List.min?_cons'] at hnone
        cases hnone
      · intro g hg
        rw [List.map_cons, List.min?_cons'] at hg
        have hfold :
            (rest.map (fun x => x.scheduled_timestamp - now)).foldl min
              (m.scheduled_timestamp - now)
            = (rest.map (fun x => x.scheduled_timestamp)).foldl min
                m.scheduled_timestamp - now := by
          have := foldl_min_sub (rest.map (fun x => x.scheduled_timestamp))
            m.scheduled_timestamp now
          simpa [List.map_map, Function.comp] using this
        rw [hfold] at hg
        have hg2 :
            (rest.map (fun x => x.scheduled_timestamp)).foldl min
              m.scheduled_timestamp - now = g := by
          exact Option.some.inj hg
        simp only [List.map_cons]
        refine ⟨by rw [hg2], ?_, ?_⟩
        · rw [hg2]
          exact le_max_left 1 _
        · rw [hg2]
          rcases le_total g 300 with h | h
          · rw [min_eq_left h]
            rcases le_total 1 g with h1 | h1
            · rw [max_eq_right h1]
              exact h
            · rw [max_eq_left h1]
              omega
          · rw [min_eq_right h]
            rw [max_eq_right (by omega : (1:Int) ≤ 300)]

/-- Concrete instance of C7: with pending gaps {5, 200} the sleep is 5. -/
theorem C7_witness :
    (pendingGaps 10
        [⟨"a", "t", "c", 15, none, false, false, "", 0⟩,
         ⟨"b", "t", "c", 210, none, false, false, "", 0⟩,
         ⟨"c", "t", "c", 3, none, false, false, "", 0⟩]).min? = some 5 ∧
    get_sleep_time 10
        [⟨"a", "t", "c", 15, none, false, false, "", 0⟩,
         ⟨"b", "t", "c", 210, none, false, false, "", 0⟩,
         ⟨"c", "t", "c", 3, none, false, false, "", 0⟩]
      = max 1 (min 5 300) ∧
    1 ≤ get_sleep_time 10
        [⟨"a", "t", "c", 15, none, false, false, "", 0⟩,
         ⟨"b", "t", "c", 210, none, false, false, "", 0⟩,
         ⟨"c", "t", "c", 3, none, false, false, "", 0⟩] ∧
    get_sleep_time 10
        [⟨"a", "t", "c", 15, none, false, false, "", 0⟩,
         ⟨"b", "t", "c", 210, none, false, false, "", 0⟩,
         ⟨"c", "t", "c", 3, none, false, false, "", 0⟩] ≤ 300 := by
  refine ⟨by decide, ?_⟩
  exact (C7_sleep_time 10
    [⟨"a", "t", "c", 15, none, false, false, "", 0⟩,
     ⟨"b", "t", "c", 210, none, false, false, "", 0⟩,
     ⟨"c", "t", "c", 3, none, false, false, "", 0⟩]).2 5 (by decide)

/-- C2: for every positive interval, arming succeeds and appends exactly
the trigger (interval <= 2h), the 2-hour warning plus trigger
(2h < interval <= 24h), or the 24-hour warning, 2-hour warning and trigger
(interval > 24h); the trigger carries the main message at now + interval,
the warnings carry fixed boilerplate content at trigger - 2h and
trigger - 24h, never the main message. -/
theorem C2_arming_message_count (now interval : Int) (mm w : String)
    (c : Option String) (store : List ScheduledMessage)
    (hi : 0 < interval) :
    (schedule_dead_mans_switch now (fun _ => true) interval mm w c store).1
      = true ∧
    (schedule_dead_mans_switch now (fun _ => true) interval mm w c store).2
      = store ++ dms_messages now interval mm (strLower w) (dmsRecipients c) ∧
    (interval ≤ 2 * 3600 →
      dms_messages now interval mm (strLower w) (dmsRecipients c)
        = [trigMessage now interval mm (strLower w) (dmsRecipients c)]) ∧
    (2 * 3600 < interval → interval ≤ 24 * 3600 →
      dms_messages now interval mm (strLower w) (dmsRecipients c)
        = [warning2Message now interval (strLower w) (dmsRecipients c),
           trigMessage now interval mm (strLower w) (dmsRecipients c)]) ∧
    (24 * 3600 < interval →
      dms_messages now interval mm (strLower w) (dmsRecipients c)
        = [warning24Message now interval (strLower w) (dmsRecipients c),
           warning2Message now interval (strLower w) (dmsRecipients c),
           trigMessage now interval mm (strLower w) (dmsRecipients c)]) ∧
    (trigMessage now interval mm (strLower w) (dmsRecipients c)).content
      = mm ∧
    (trigMessage now interval mm (strLower w)
      (dmsRecipients c)).scheduled_timestamp = now + interval ∧
    (warning2Message now interval (strLower w) (dmsRecipients c)).content
      = warning2Content ∧
    (warning2Message now interval (strLower w)
      (dmsRecipients c)).scheduled_timestamp = now + interval - 2 * 3600 ∧
    (warning24Message now interval (strLower w) (dmsRecipients c)).content
      = warning24Content ∧
    (warning24Message now interval (strLower w)
      (dmsRecipients c)).scheduled_timestamp = now + interval - 24 * 3600 := by
  rw [schedule_dead_mans_switch_ok now interval mm w c store hi]
  refine ⟨rfl, rfl, ?_, ?_, ?_, rfl, rfl, rfl, rfl, rfl, rfl⟩
  · intro h2
    unfold dms_messages
    rw [if_neg (by omega), if_neg (by omega)]
    rfl
  · intro h2 h24
    unfold dms_messages
    rw [if_neg (by omega), if_pos h2]
    rfl
  · intro h24
    unfold dms_messages
    rw [if_pos h24, if_pos (by omega)]
    rfl

/-- Concrete instance of C2 at the spec scenario interval of 90000s (25h):
arming appends the 24-hour warning, the 2-hour warning and the trigger. -/
theorem C2_witness :
    (0 : Int) < 90000 ∧
    (schedule_dead_mans_switch 1000 (fun _ => true) 90000 "hello" "Apple"
        (some "bob") []).1 = true ∧
    (schedule_dead_mans_switch 1000 (fun _ => true) 90000 "hello" "Apple"
        (some "bob") []).2
      = [] ++ dms_messages 1000 90000 "hello" (strLower "Apple")
          (dmsRecipients (some "bob")) ∧
    ((90000 : Int) ≤ 2 * 3600 →
      dms_messages 1000 90000 "hello" (strLower "Apple")
          (dmsRecipients (some "bob"))
        = [trigMessage 1000 90000 "hello" (strLower "Apple")
            (dmsRecipients (some "bob"))]) ∧
    ((2 * 3600 : Int) < 90000 → (90000 : Int) ≤ 24 * 3600 →
      dms_messages 1000 90000 "hello" (strLower "Apple")
          (dmsRecipients (some "bob"))
        = [warning2Message 1000 90000 (strLower "Apple")
             (dmsRecipients (some "bob")),
           trigMessage 1000 90000 "hello" (strLower "Apple")
             (dmsRecipients (some "bob"))]) ∧
    ((24 * 3600 : Int) < 90000 →
      dms_messages 1000 90000 "hello" (strLower "Apple")
          (dmsRecipients (some "bob"))
        = [warning24Message 1000 90000 (strLower "Apple")
             (dmsRecipients (some "bob")),
           warning2Message 1000 90000 (strLower "Apple")
             (dmsRecipients (some "bob")),
           trigMessage 1000 90000 "hello" (strLower "Apple")
             (dmsRecipients (some "bob"))]) ∧
    (trigMessage 1000 90000 "hello" (strLower "Apple")
      (dmsRecipients (some "bob"))).content = "hello" ∧
    (trigMessage 1000 90000 "hello" (strLower "Apple")
      (dmsRecipients (some "bob"))).scheduled_timestamp = 1000 + 90000 ∧
    (warning2Message 1000 90000 (strLower "Apple")
      (dmsRecipients (some "bob"))).content = warning2Content ∧
    (warning2Message 1000 90000 (strLower "Apple")
      (dmsRecipients (some "bob"))).scheduled_timestamp
      = 1000 + 90000 - 2 * 3600 ∧
    (warning24Message 1000 90000 (strLower "Apple")
      (dmsRecipients (some "bob"))).content = warning24Content ∧
    (warning24Message 1000 90000 (strLower "Apple")
      (dmsRecipients (some "bob"))).scheduled_timestamp
      = 1000 + 90000 - 24 * 3600 := by
  refine ⟨by decide, ?_⟩
  exact C2_arming_message_count 1000 90000 "hello" "Apple" (some "bob") []
    (by decide)

/-- C1 fails as stated: a switch armed with an empty main message keeps its
trigger message stored, yet an inbound text containing the reset word (and
no "end") neither deletes the switch messages nor re-arms: the store is
unchanged, a failure confirmation is sent, the messages sharing the reset
word are still present, and no new trigger exists at reset time plus the
interval (2300 + 500). -/
theorem C1_counterexample :
    process_incoming_message 2300 (fun _ => true) "alice" "check apple soon"
        ((schedule_dead_mans_switch 2000 (fun _ => true) 500 "" "apple"
            none []).2)
      = ⟨(schedule_dead_mans_switch 2000 (fun _ => true) 500 "" "apple"
            none []).2,
         [("alice", resetFailedMsg)]⟩ ∧
    ((process_incoming_message 2300 (fun _ => true) "alice"
        "check apple soon"
        ((schedule_dead_mans_switch 2000 (fun _ => true) 500 "" "apple"
            none []).2)).store.any
      (fun m => matchesResetWord "apple" m)) = true ∧
    ((process_incoming_message 2300 (fun _ => true) "alice"
        "check apple soon"
        ((schedule_dead_mans_switch 2000 (fun _ => true) 500 "" "apple"
            none []).2)).store.any
      (fun m => m.scheduled_timestamp == 2300 + 500)) = false := by
  decide

/-- C1 amended: when additionally the recovered trigger content is
non-empty (and the interval positive), handling an inbound text whose scan
finds the reset word (and that lacks "end") deletes every message sharing
the reset word and re-arms: the new trigger carries the recovered original
content and is scheduled at reset time plus the original interval. -/
theorem C1_reset_rearms_recovered_content (t : Int) (sender text w c : String)
    (i : Int) (store : List ScheduledMessage)
    (htext : text ≠ "")
    (hfind : find_reset_word (pyStrip (strLower text)) store = some (w, i))
    (hend : strContains (pyStrip (strLower text)) "end" = false)
    (hmain : get_main_message_content w store = some c)
    (hc : c ≠ "") (hi : 0 < i) :
    (process_incoming_message t (fun _ => true) sender text store).store
      = store.filter (fun m => !(matchesResetWord w m))
        ++ dms_messages t i c (strLower w) (dmsRecipients (some sender)) ∧
    trigMessage t i c (strLower w) (dmsRecipients (some sender))
      ∈ (process_incoming_message t (fun _ => true) sender text store).store ∧
    (trigMessage t i c (strLower w) (dmsRecipients (some sender))).content
      = c ∧
    (trigMessage t i c (strLower w)
      (dmsRecipients (some sender))).scheduled_timestamp = t + i ∧
    (process_incoming_message t (fun _ => true) sender text store).confirmations
      = [(sender, resetOkMsg)] := by
  have hp := process_reset_eq t sender text w c i store htext hfind hend
    hmain hc hi
  rw [hp]
  refine ⟨?_, ?_, rfl, rfl, rfl⟩
  · simp [deleteScan_eq]
  · apply List.mem_append_right
    simp [dms_messages]

/-- Concrete instance of the amended C1: an armed switch (word "apple",
content "hello", interval 500) reset at time 2300 by "bob" saying
"Please apple": the old trigger is deleted and a new one is armed at 2800
with content "hello". -/
theorem C1_witness :
    ("Please apple" : String) ≠ "" ∧
    find_reset_word (pyStrip (strLower "Please apple"))
        [⟨"x", triggeredTitle, "hello", 2500, none, false, true, "apple",
          500⟩] = some ("apple", 500) ∧
    strContains (pyStrip (strLower "Please apple")) "end" = false ∧
    get_main_message_content "apple"
        [⟨"x", triggeredTitle, "hello", 2500, none, false, true, "apple",
          500⟩] = some "hello" ∧
    ("hello" : String) ≠ "" ∧
    (0 : Int) < 500 ∧
    ((process_incoming_message 2300 (fun _ => true) "bob" "Please apple"
        [⟨"x", triggeredTitle, "hello", 2500, none, false, true, "apple",
          500⟩]).store
      = [⟨"x", triggeredTitle, "hello", 2500, none, false, true, "apple",
          500⟩].filter (fun m => !(matchesResetWord "apple" m))
        ++ dms_messages 2300 500 "hello" (strLower "apple")
            (dmsRecipients (some "bob")) ∧
    trigMessage 2300 500 "hello" (strLower "apple")
        (dmsRecipients (some "bob"))
      ∈ (process_incoming_message 2300 (fun _ => true) "bob" "Please apple"
        [⟨"x", triggeredTitle, "hello", 2500, none, false, true, "apple",
          500⟩]).store ∧
    (trigMessage 2300 500 "hello" (strLower "apple")
      (dmsRecipients (some "bob"))).content = "hello" ∧
    (trigMessage 2300 500 "hello" (strLower "apple")
      (dmsRecipients (some "bob"))).scheduled_timestamp = 2300 + 500 ∧
    (process_incoming_message 2300 (fun _ => true) "bob" "Please apple"
        [⟨"x", triggeredTitle, "hello", 2500, none, false, true, "apple",
          500⟩]).confirmations = [("bob", resetOkMsg)]) := by
  refine ⟨by decide, by decide, by decide, by decide, by decide, by decide,
    ?_⟩
  exact C1_reset_rearms_recovered_content 2300 "bob" "Please apple" "apple"
    "hello" 500
    [⟨"x", triggeredTitle, "hello", 2500, none, false, true, "apple", 500⟩]
    (by decide) (by decide) (by decide) (by decide) (by decide) (by decide)

/-- C5 fails as stated: a switch armed for broadcast (recipients = none)
and reset by sender "mallory" is re-armed targeting ["mallory"], not
broadcast: the original store is all-broadcast, the reset succeeds, and
every re-armed message carries recipients = some ["mallory"]. -/
theorem C5_counterexample :
    (((schedule_dead_mans_switch 2000 (fun _ => true) 500 "hello" "apple"
        none []).2).all (fun m => m.recipients == none)) = true ∧
    (process_incoming_message 2300 (fun _ => true) "mallory" "apple"
        ((schedule_dead_mans_switch 2000 (fun _ => true) 500 "hello"
            "apple" none []).2)).confirmations
      = [("mallory", resetOkMsg)] ∧
    (process_incoming_message 2300 (fun _ => true) "mallory" "apple"
        ((schedule_dead_mans_switch 2000 (fun _ => true) 500 "hello"
            "apple" none []).2)).store ≠ [] ∧
    ((process_incoming_message 2300 (fun _ => true) "mallory" "apple"
        ((schedule_dead_mans_switch 2000 (fun _ => true) 500 "hello"
            "apple" none []).2)).store.all
      (fun m => m.recipients == some ["mallory"])) = true := by
  decide

/-- C5 amended: a successful reset re-arms the switch targeting the sender
contact that issued the reset text ([sender], or broadcast for an empty
sender id), regardless of the original targeting of the switch. -/
theorem C5_reset_targets_sender (t : Int) (sender text w c : String)
    (i : Int) (store : List ScheduledMessage)
    (htext : text ≠ "")
    (hfind : find_reset_word (pyStrip (strLower text)) store = some (w, i))
    (hend : strContains (pyStrip (strLower text)) "end" = false)
    (hmain : get_main_message_content w store = some c)
    (hc : c ≠ "") (hi : 0 < i) :
    (process_incoming_message t (fun _ => true) sender text store).store
      = store.filter (fun m => !(matchesResetWord w m))
        ++ dms_messages t i c (strLower w) (dmsRecipients (some sender)) ∧
    (∀ m ∈ dms_messages t i c (strLower w) (dmsRecipients (some sender)),
      m.recipients = dmsRecipients (some sender)) ∧
    (sender ≠ "" → dmsRecipients (some sender) = some [sender]) := by
  have hp := process_reset_eq t sender text w c i store htext hfind hend
    hmain hc hi
  rw [hp]
  refine ⟨?_, ?_, ?_⟩
  · simp [deleteScan_eq]
  · intro m hm
    exact (dms_messages_mem t i c (strLower w) (dmsRecipients (some sender))
      m hm).2.1
  · intro hs
    unfold dmsRecipients
    simp only [beq_eq_false_iff_ne.mpr hs, Bool.false_eq_true, if_false]

/-- Concrete instance of the amended C5: the broadcast-armed switch of the
counterexample, reset by "mallory", is re-armed targeting ["mallory"]. -/
theorem C5_witness :
    ("apple" : String) ≠ "" ∧
    find_reset_word (pyStrip (strLower "apple"))
        [⟨"x", triggeredTitle, "hello", 2500, none, false, true, "apple",
          500⟩] = some ("apple", 500) ∧
    strContains (pyStrip (strLower "apple")) "end" = false ∧
    get_main_message_content "apple"
        [⟨"x", triggeredTitle, "hello", 2500, none, false, true, "apple",
          500⟩] = some "hello" ∧
    ("hello" : String) ≠ "" ∧
    (0 : Int) < 500 ∧
    ((process_incoming_message 2300 (fun _ => true) "mallory" "apple"
        [⟨"x", triggeredTitle, "hello", 2500, none, false, true, "apple",
          500⟩]).store
      = [⟨"x", triggeredTitle, "hello", 2500, none, false, true, "apple",
          500⟩].filter (fun m => !(matchesResetWord "apple" m))
        ++ dms_messages 2300 500 "hello" (strLower "apple")
            (dmsRecipients (some "mallory")) ∧
    (∀ m ∈ dms_messages 2300 500 "hello" (strLower "apple")
        (dmsRecipients (some "mallory")),
      m.recipients = dmsRecipients (some "mallory")) ∧
    (("mallory" : String) ≠ "" →
      dmsRecipients (some "mallory") = some ["mallory"])) := by
  refine ⟨by decide, by decide, by decide, by decide, by decide, by decide,
    ?_⟩
  exact C5_reset_targets_sender 2300 "mallory" "apple" "apple" "hello" 500
    [⟨"x", triggeredTitle, "hello", 2500, none, false, true, "apple", 500⟩]
    (by decide) (by decide) (by decide) (by decide) (by decide) (by decide)

/-- C9: when the stored trigger content of the matched switch is the empty
string, the reset fails: the store is unchanged, a failure confirmation is
sent to the sender, and the (empty-content) trigger message is still
present. -/
theorem C9_empty_content_reset_fails (t : Int) (wk : Nat → Bool)
    (sender text w : String) (i : Int) (store : List ScheduledMessage)
    (htext : text ≠ "")
    (hfind : find_reset_word (pyStrip (strLower text)) store = some (w, i))
    (hend : strContains (pyStrip (strLower text)) "end" = false)
    (hmain : get_main_message_content w store = some "") :
    process_incoming_message t wk sender text store
      = ⟨store, [(sender, resetFailedMsg)]⟩ ∧
    ∃ m ∈ store, m.dead_mans_switch = true ∧
      strStartsWith m.title triggeredTitle = true ∧
      strLower m.reset_word = strLower w ∧ m.content = "" := by
  constructor
  · exact process_reset_failed t wk sender text w i store htext hfind hend
      (Or.inr hmain)
  · unfold get_main_message_content at hmain
    cases hfound : store.find? (fun m =>
        m.dead_mans_switch &&
        (strLower m.reset_word == strLower w) &&
        strStartsWith m.title triggeredTitle) with
    | none =>
        rw [hfound] at hmain
        cases hmain
    | some m =>
        rw [hfound] at hmain
        have hmem := List.mem_of_find?_eq_some hfound
        have hpred := List.find?_some hfound
        have hcontent : m.content = "" := by
          simpa using hmain
        simp only [Bool.and_eq_true, beq_iff_eq] at hpred
        exact ⟨m, hmem, hpred.1.1, hpred.2, hpred.1.2, hcontent⟩

/-- Concrete instance of C9: an armed switch whose stored trigger content
is empty; the inbound reset text "my apple" fails and changes nothing. -/
theorem C9_witness :
    ("my apple" : String) ≠ "" ∧
    find_reset_word (pyStrip (strLower "my apple"))
        [⟨"x", triggeredTitle, "", 2500, none, false, true, "apple", 500⟩]
      = some ("apple", 500) ∧
    strContains (pyStrip (strLower "my apple")) "end" = false ∧
    get_main_message_content "apple"
        [⟨"x", triggeredTitle, "", 2500, none, false, true, "apple", 500⟩]
      = some "" ∧
    (process_incoming_message 2300 (fun _ => true) "bob" "my apple"
        [⟨"x", triggeredTitle, "", 2500, none, false, true, "apple", 500⟩]
      = ⟨[⟨"x", triggeredTitle, "", 2500, none, false, true, "apple",
            500⟩], [("bob", resetFailedMsg)]⟩ ∧
    ∃ m ∈ [(⟨"x", triggeredTitle, "", 2500, none, false, true, "apple",
        500⟩ : ScheduledMessage)], m.dead_mans_switch = true ∧
      strStartsWith m.title triggeredTitle = true ∧
      strLower m.reset_word = strLower "apple" ∧ m.content = "") := by
  refine ⟨by decide, by decide, by decide, by decide, ?_⟩
  exact C9_empty_content_reset_fails 2300 (fun _ => true) "bob" "my apple"
    "apple" 500
    [⟨"x", triggeredTitle, "", 2500, none, false, true, "apple", 500⟩]
    (by decide) (by decide) (by decide) (by decide)

/-- C6 fails as stated: a non-DMS message whose reset word matches
case-insensitively is not removed by DeleteByResetWord (the source also
requires the dead_mans_switch flag). -/
theorem C6_counterexample :
    (delete_messages_by_reset_word "w"
        [⟨"a", "t", "c", 100, none, false, false, "w", 0⟩]).store
      = [⟨"a", "t", "c", 100, none, false, false, "w", 0⟩] ∧
    strLower (⟨"a", "t", "c", 100, none, false, false, "w",
        0⟩ : ScheduledMessage).reset_word = strLower "w" ∧
    (⟨"a", "t", "c", 100, none, false, false, "w",
        0⟩ : ScheduledMessage).dead_mans_switch = false := by
  decide

/-- C6 amended: DeleteByResetWord always succeeds and removes exactly the
dead_mans_switch-flagged messages whose reset word matches
case-insensitively, reporting their count; it is idempotent: an immediate
second call succeeds, counts zero deletions and leaves the store
unchanged. -/
theorem C6_delete_dms_exact_and_idempotent (w : String)
    (s : List ScheduledMessage) :
    (delete_messages_by_reset_word w s).success = true ∧
    (delete_messages_by_reset_word w s).store
      = s.filter (fun m => !(matchesResetWord w m)) ∧
    (delete_messages_by_reset_word w s).deleted_count
      = (s.filter (fun m => matchesResetWord w m)).length ∧
    (delete_messages_by_reset_word w
        ((delete_messages_by_reset_word w s).store)).success = true ∧
    (delete_messages_by_reset_word w
        ((delete_messages_by_reset_word w s).store)).deleted_count = 0 ∧
    (delete_messages_by_reset_word w
        ((delete_messages_by_reset_word w s).store)).store
      = (delete_messages_by_reset_word w s).store := by
  unfold delete_messages_by_reset_word
  refine ⟨rfl, ?_, ?_, rfl, ?_, ?_⟩
  · simp [deleteScan_eq]
  · simp [deleteScan_eq]
  · simp [deleteScan_eq, List.filter_filter]
  · simp [deleteScan_eq, List.filter_filter]

/-- Deleting the matching DMS messages leaves the non-DMS part of the
store untouched (a non-DMS message never satisfies the deletion filter). -/
lemma filter_nondms_filter_nonmatch (w : String)
    (s : List ScheduledMessage) :
    (s.filter (fun m => !(matchesResetWord w m))).filter
      (fun m => !m.dead_mans_switch)
    = s.filter (fun m => !m.dead_mans_switch) := by
  rw [List.filter_filter]
  apply List.filter_congr
  intro m _
  cases hm : m.dead_mans_switch <;> simp [matchesResetWord, hm]

/-- A reset, in every path, preserves the non-DMS part of the store. -/
lemma reset_filter_nondms (now : Int) (wk : Nat → Bool) (w : String)
    (i : Int) (sender : String) (store : List ScheduledMessage) :
    ((reset_dead_mans_switch now wk w i sender store).2).filter
      (fun m => !m.dead_mans_switch)
    = store.filter (fun m => !m.dead_mans_switch) := by
  unfold reset_dead_mans_switch
  split
  · rfl
  · split
    · rfl
    · simp only [dms_delete_messages_by_reset_word]
      rw [schedule_dead_mans_switch_filter]
      simp only [deleteScan_eq]
      exact filter_nondms_filter_nonmatch w store

/-- C10: for every reset word (the empty string included) and every store,
neither DeleteByResetWord, nor the controller copy of it, nor the whole
inbound-text handler (covering its disable and reset deletions) ever
removes or changes a message whose dead_mans_switch flag is false. -/
theorem C10_nondms_frame (w : String) (store : List ScheduledMessage)
    (now : Int) (wk : Nat → Bool) (sender text : String) :
    ((delete_messages_by_reset_word w store).store).filter
        (fun m => !m.dead_mans_switch)
      = store.filter (fun m => !m.dead_mans_switch) ∧
    ((dms_delete_messages_by_reset_word w store).2).filter
        (fun m => !m.dead_mans_switch)
      = store.filter (fun m => !m.dead_mans_switch) ∧
    ((process_incoming_message now wk sender text store).store).filter
        (fun m => !m.dead_mans_switch)
      = store.filter (fun m => !m.dead_mans_switch) := by
  refine ⟨?_, ?_, ?_⟩
  · unfold delete_messages_by_reset_word
    simp only [deleteScan_eq]
    exact filter_nondms_filter_nonmatch w store
  · unfold dms_delete_messages_by_reset_word
    simp only [deleteScan_eq]
    exact filter_nondms_filter_nonmatch w store
  · unfold process_incoming_message
    split
    · rfl
    · dsimp only
      split
      · rfl
      · rename_i fw fi hmatch
        split
        · simp only [disable_dead_mans_switch,
            dms_delete_messages_by_reset_word, deleteScan_eq]
          exact filter_nondms_filter_nonmatch fw store
        · have hr := reset_filter_nondms now wk fw fi sender store
          rcases hres : reset_dead_mans_switch now wk fw fi sender store
            with ⟨b, s⟩
          rw [hres] at hr
          cases b
          · simpa using hr
          · simpa using hr

/-- C8 fails as stated: two AddMessage calls in the same second with the
same title and content generate the same id, so the store ends up with two
messages sharing one id. -/
theorem C8_counterexample :
    ((add_message 0 true "t" "c" 10 none false false "" 0
        ((add_message 0 true "t" "c" 10 none false false "" 0 []).2)).2).length
      = 2 ∧
    ¬ ((((add_message 0 true "t" "c" 10 none false false "" 0
        ((add_message 0 true "t" "c" 10 none false false "" 0 []).2)).2).map
      (fun m => m.id)).Nodup) := by
  constructor
  · decide
  · decide

/-- C8 amended: id uniqueness is not unconditional; it is preserved by
AddMessage exactly when the generated id (a pure function of the creation
second and the title+content hash) is absent from the store, while
deletion by reset word and due-delivery removal always preserve it. -/
theorem C8_id_unique_if_fresh (now : Int) (ok : Bool) (ti co : String)
    (ts : Int) (rc : Option (List String)) (jp dms : Bool) (rw : String)
    (oi : Int) (store : List ScheduledMessage) (w : String)
    (hnd : (store.map (fun m => m.id)).Nodup)
    (hfresh : mkMessageId now ti co ∉ store.map (fun m => m.id)) :
    (((add_message now ok ti co ts rc jp dms rw oi store).2).map
        (fun m => m.id)).Nodup ∧
    (((delete_messages_by_reset_word w store).store).map
        (fun m => m.id)).Nodup ∧
    ((process_due_remaining now store).map (fun m => m.id)).Nodup := by
  refine ⟨?_, ?_, ?_⟩
  · rcases add_message_snd_cases now ok ti co ts rc jp dms rw oi store
      with h | h
    · rw [h]
      exact hnd
    · rw [h, List.map_append]
      rw [List.nodup_append]
      refine ⟨hnd, by simp, ?_⟩
      intro a ha hb
      simp only [List.map_cons, List.map_nil, List.mem_singleton] at hb
      subst hb
      exact hfresh ha
  · unfold delete_messages_by_reset_word
    simp only [deleteScan_eq]
    exact hnd.sublist (List.Sublist.map _ (List.filter_sublist _))
  · unfold process_due_remaining
    exact hnd.sublist (List.Sublist.map _ (List.filter_sublist _))

/-- Concrete instance of the amended C8: adding a fresh-id message to a
one-message store keeps all ids distinct, as do deletion and due-removal. -/
theorem C8_witness :
    (([⟨"other", "t2", "c2", 99, none, false, false, "", 0⟩] :
        List ScheduledMessage).map (fun m => m.id)).Nodup ∧
    mkMessageId 0 "t" "c" ∉
      ([⟨"other", "t2", "c2", 99, none, false, false, "", 0⟩] :
        List ScheduledMessage).map (fun m => m.id) ∧
    ((((add_message 0 true "t" "c" 10 none false false "" 0
        [⟨"other", "t2", "c2", 99, none, false, false, "", 0⟩]).2).map
        (fun m => m.id)).Nodup ∧
    (((delete_messages_by_reset_word "w"
        [⟨"other", "t2", "c2", 99, none, false, false, "", 0⟩]).store).map
        (fun m => m.id)).Nodup ∧
    ((process_due_remaining 0
        [⟨"other", "t2", "c2", 99, none, false, false, "", 0⟩]).map
        (fun m => m.id)).Nodup) := by
  refine ⟨by decide, by decide, ?_⟩
  exact C8_id_unique_if_fresh 0 true "t" "c" 10 none false false "" 0
    [⟨"other", "t2", "c2", 99, none, false, false, "", 0⟩] "w"
    (by decide) (by decide)

/-- Every run of the arming sequence, however the write oracle behaves,
appends some prefix of the planned switch messages; it succeeds exactly
when the whole plan was written. -/
lemma schedule_outcome (now : Int) (wk : Nat → Bool) (interval : Int)
    (mm w : String) (c : Option String) (store : List ScheduledMessage)
    (hi : 0 < interval) :
    ∃ k,
      k ≤ (dms_messages now interval mm (strLower w)
            (dmsRecipients c)).length ∧
      (schedule_dead_mans_switch now wk interval mm w c store).2
        = store ++ (dms_messages now interval mm (strLower w)
            (dmsRecipients c)).take k ∧
      ((schedule_dead_mans_switch now wk interval mm w c store).1 = true ↔
        k = (dms_messages now interval mm (strLower w)
            (dmsRecipients c)).length) := by
  by_cases h24 : (24 * 3600 : Int) < interval
  · have h2 : (2 * 3600 : Int) < interval := by omega
    have hL : dms_messages now interval mm (strLower w) (dmsRecipients c)
        = [warning24Message now interval (strLower w) (dmsRecipients c),
           warning2Message now interval (strLower w) (dmsRecipients c),
           trigMessage now interval mm (strLower w) (dmsRecipients c)] := by
      unfold dms_messages
      rw [if_pos h24, if_pos h2]
      rfl
    rw [hL]
    unfold schedule_dead_mans_switch
    rw [if_pos h24]
    unfold add_message
    rw [if_neg (by omega : ¬ now + interval - 24 * 3600 ≤ now)]
    cases hwk0 : wk 0
    · exact ⟨0, by simp, by simp, by simp⟩
    · simp only [reduceIte]
      unfold schedule_step_2h
      rw [if_pos h2]
      unfold add_message
      rw [if_neg (by omega : ¬ now + interval - 2 * 3600 ≤ now)]
      cases hwk1 : wk 1
      · refine ⟨1, by simp, ?_, by simp⟩
        simp [warning24Message]
      · simp only [reduceIte]
        unfold schedule_step_main
        unfold add_message
        rw [if_neg (by omega : ¬ now + interval ≤ now)]
        cases hwk2 : wk (1 + 1)
        · refine ⟨2, by simp, ?_, by simp⟩
          simp [warning24Message, warning2Message]
        · refine ⟨3, by simp, ?_, by simp⟩
          simp [warning24Message, warning2Message, trigMessage]
  · by_cases h2 : (2 * 3600 : Int) < interval
    · have hL : dms_messages now interval mm (strLower w) (dmsRecipients c)
          = [warning2Message now interval (strLower w) (dmsRecipients c),
             trigMessage now interval mm (strLower w) (dmsRecipients c)] := by
        unfold dms_messages
        rw [if_neg h24, if_pos h2]
        rfl
      rw [hL]
      unfold schedule_dead_mans_switch
      rw [if_neg h24]
      unfold schedule_step_2h
      rw [if_pos h2]
      unfold add_message
      rw [if_neg (by omega : ¬ now + interval - 2 * 3600 ≤ now)]
      cases hwk0 : wk 0
      · exact ⟨0, by simp, by simp, by simp⟩
      · simp only [reduceIte]
        unfold schedule_step_main
        unfold add_message
        rw [if_neg (by omega : ¬ now + interval ≤ now)]
        cases hwk1 : wk (0 + 1)
        · refine ⟨1, by simp, ?_, by simp⟩
          simp [warning2Message]
        · refine ⟨2, by simp, ?_, by simp⟩
          simp [warning2Message, trigMessage]
    · have hL : dms_messages now interval mm (strLower w) (dmsRecipients c)
          = [trigMessage now interval mm (strLower w) (dmsRecipients c)] := by
        unfold dms_messages
        rw [if_neg h24, if_neg h2]
        rfl
      rw [hL]
      unfold schedule_dead_mans_switch
      rw [if_neg h24]
      unfold schedule_step_2h
      rw [if_neg h2]
      unfold schedule_step_main
      unfold add_message
      rw [if_neg (by omega : ¬ now + interval ≤ now)]
      cases hwk0 : wk 0
      · exact ⟨0, by simp, by simp, by simp⟩
      · refine ⟨1, by simp, ?_, by simp⟩
        simp [trigMessage]

set_option maxRecDepth 4000 in
/-- C4 fails as stated: with the first write succeeding and the second
failing, arming a 25-hour switch returns failure but leaves the already
inserted 24-hour warning in the store. -/
theorem C4_counterexample :
    (schedule_dead_mans_switch 0 (fun n => n == 0) 90000 "m" "w" none []).1
      = false ∧
    (schedule_dead_mans_switch 0 (fun n => n == 0) 90000 "m" "w" none []).2
      = [warning24Message 0 90000 (strLower "w") (dmsRecipients none)] := by
  constructor
  · decide
  · decide

/-- C4 amended: when an underlying AddMessage call fails, arming returns
failure, but partial inserts are not rolled back: the store keeps its
prior contents plus the messages added by the earlier successful calls, a
proper prefix of the planned switch messages. -/
theorem C4_arming_failure_keeps_partial (now : Int) (wk : Nat → Bool)
    (interval : Int) (mm w : String) (c : Option String)
    (store : List ScheduledMessage) (hi : 0 < interval)
    (hfail : (schedule_dead_mans_switch now wk interval mm w c store).1
      = false) :
    ∃ k,
      k < (dms_messages now interval mm (strLower w)
            (dmsRecipients c)).length ∧
      (schedule_dead_mans_switch now wk interval mm w c store).2
        = store ++ (dms_messages now interval mm (strLower w)
            (dmsRecipients c)).take k := by
  obtain ⟨k, hk, hstore, hiff⟩ :=
    schedule_outcome now wk interval mm w c store hi
  refine ⟨k, ?_, hstore⟩
  rcases lt_or_eq_of_le hk with h | h
  · exact h
  · have ht := hiff.mpr h
    rw [hfail] at ht
    exact absurd ht (by decide)

/-- Concrete instance of the amended C4: the failed 25-hour arming of the
counterexample leaves exactly the 24-hour warning (a proper prefix of the
plan) behind. -/
theorem C4_witness :
    (0 : Int) < 90000 ∧
    (schedule_dead_mans_switch 0 (fun n => n == 0) 90000 "m" "w" none []).1
      = false ∧
    ∃ k,
      k < (dms_messages 0 90000 "m" (strLower "w")
            (dmsRecipients none)).length ∧
      (schedule_dead_mans_switch 0 (fun n => n == 0) 90000 "m" "w"
          none []).2
        = [] ++ (dms_messages 0 90000 "m" (strLower "w")
            (dmsRecipients none)).take k := by
  refine ⟨by decide, by decide, ?_⟩
  exact C4_arming_failure_keeps_partial 0 (fun n => n == 0) 90000 "m" "w"
    none [] (by decide) (by decide)

end BriarNotify
